import Mathlib

/-!
Shallow embedding of `WellProductionProperties.cpp` (opm-common,
`src/opm/parser/eclipse/EclipseState/Schedule/Well/WellProductionProperties.cpp`):
the historical resolver `history`, the predictive resolver `prediction`,
structural equality `operator==`, and the predicate
`effectiveHistoryProductionControl`, together with theorems settling the
spec's claims about them.

Doubles are modelled as rationals (the source only copies, adds and compares
them), `int` as `Int`, and the production-control bitmask as a
`Finset ControlMode`.
-/

namespace Opm

/-- The well-producer control-mode enumeration (`WellProducer::ControlModeEnum`
from `ScheduleEnums.hpp`, which is not under `src/`).  Modelled from the spec:
the closed set `ORAT, WRAT, GRAT, LRAT, RESV, THP, BHP, GRUP`, plus the
cumulative-rate mode `CRAT` that the source's comment excludes from historical
handling by design, plus the undefined/default member that a default-constructed
state's current control carries before any directive selects a mode. -/
inductive ControlMode where
  | ORAT
  | WRAT
  | GRAT
  | LRAT
  | CRAT
  | RESV
  | BHP
  | THP
  | GRUP
  | CMODE_UNDEFINED
deriving DecidableEq, Repr

/-- The trimmed text of a control-mode directive.  Modelled from the spec: the
CMODE deck item is modelled as an already-parsed `ControlMode` (the resolver
"never performs raw-text parsing itself"), and `modeString` recovers the
record's trimmed string for error messages. -/
def modeString : ControlMode → String
  | .ORAT => "ORAT"
  | .WRAT => "WRAT"
  | .GRAT => "GRAT"
  | .LRAT => "LRAT"
  | .CRAT => "CRAT"
  | .RESV => "RESV"
  | .BHP  => "BHP"
  | .THP  => "THP"
  | .GRUP => "GRUP"
  | .CMODE_UNDEFINED => "CMODE_UNDEFINED"

/-- The resolved control state (`WellProductionProperties`).  The member
defaults come from the class header, which is not under `src/`; modelled from
the spec: numeric fields default to the unset sentinel 0, the active-control
set starts empty, and the current control starts at the undefined default. -/
structure WellProductionProperties where
  OilRate : ℚ := 0
  WaterRate : ℚ := 0
  GasRate : ℚ := 0
  LiquidRate : ℚ := 0
  ResVRate : ℚ := 0
  BHPLimit : ℚ := 0
  THPLimit : ℚ := 0
  BHPH : ℚ := 0
  THPH : ℚ := 0
  VFPTableNumber : ℤ := 0
  ALQValue : ℚ := 0
  predictionMode : Bool := false
  controlMode : ControlMode := .CMODE_UNDEFINED
  m_productionControls : Finset ControlMode := ∅
deriving DecidableEq

namespace WellProductionProperties

/-- `addProductionControl` (header helper, not under `src/`): inserts a mode
into the production-control bitmask. -/
def addProductionControl (p : WellProductionProperties) (m : ControlMode) :
    WellProductionProperties :=
  { p with m_productionControls := insert m p.m_productionControls }

/-- `hasProductionControl` (header helper, not under `src/`): membership in the
production-control bitmask. -/
def hasProductionControl (p : WellProductionProperties) (m : ControlMode) : Bool :=
  decide (m ∈ p.m_productionControls)

/-- `unit::atm` from `Units.hpp` (not under `src/`).  Modelled from the spec:
the fixed default BHP limit is one standard atmosphere, 101325 Pa. -/
def atm : ℚ := 101325

/-- `WellProductionProperties::resetDefaultBHPLimit`. -/
def resetDefaultBHPLimit (p : WellProductionProperties) : WellProductionProperties :=
  { p with BHPLimit := 1 * atm }

/-- `WellProductionProperties::setBHPLimit`. -/
def setBHPLimit (p : WellProductionProperties) (limit : ℚ) : WellProductionProperties :=
  { p with BHPLimit := limit }

/-- `WellProductionProperties::getBHPLimit`. -/
def getBHPLimit (p : WellProductionProperties) : ℚ :=
  p.BHPLimit

/-- `WellProductionProperties::effectiveHistoryProductionControl`.
Note, not handling CRAT for now (as in the source). -/
def effectiveHistoryProductionControl (cmode : ControlMode) : Bool :=
  cmode == .LRAT || cmode == .RESV || cmode == .ORAT ||
  cmode == .WRAT || cmode == .GRAT || cmode == .BHP

/-- `WellProductionProperties::operator==`: compares the fields listed at lines
172-186 of the source, in that order (`ALQValue` is not among them). -/
def wppEq (a b : WellProductionProperties) : Bool :=
  decide (a.OilRate = b.OilRate)
  && decide (a.WaterRate = b.WaterRate)
  && decide (a.GasRate = b.GasRate)
  && decide (a.LiquidRate = b.LiquidRate)
  && decide (a.ResVRate = b.ResVRate)
  && decide (a.BHPLimit = b.BHPLimit)
  && decide (a.THPLimit = b.THPLimit)
  && decide (a.BHPH = b.BHPH)
  && decide (a.THPH = b.THPH)
  && decide (a.VFPTableNumber = b.VFPTableNumber)
  && decide (a.controlMode = b.controlMode)
  && decide (a.m_productionControls = b.m_productionControls)
  && decide (a.predictionMode = b.predictionMode)

end WellProductionProperties

/-- A WCONHIST record as the historical resolver reads it: the three rate
items' SI values, the optional measured BHP/THP values (`hasValue`), the
control-mode directive (`none` when `defaultApplied`), the VFP table number and
the lift quantity. -/
structure HistRecord where
  ORAT : ℚ
  WRAT : ℚ
  GRAT : ℚ
  BHP : Option ℚ
  THP : Option ℚ
  CMODE : Option ControlMode
  VFPTable : ℤ
  Lift : ℚ
deriving DecidableEq, Repr

/-- A deck item as the predictive resolver reads it: the SI value and the
`defaultApplied` flag. -/
structure Item where
  value : ℚ
  defaulted : Bool
deriving DecidableEq, Repr

/-- A WCONPROD record as the predictive resolver reads it. -/
structure PredRecord where
  ORAT : Item
  WRAT : Item
  GRAT : Item
  LRAT : Item
  RESV : Item
  BHP : ℚ
  THP : Item
  ALQ : ℚ
  VFP_TABLE : ℤ
  CMODE : Option ControlMode
deriving DecidableEq, Repr

/-- The resolver's fail-fast error taxonomy (the source throws
`std::invalid_argument` with these messages). -/
inductive ResolveError where
  | missingControlMode (msg : String)
  | unsupportedControlMode (msg : String)
  | unavailableControlSelection (msg : String)
deriving DecidableEq, Repr

namespace WellProductionProperties

/-- The straight-line body of `WellProductionProperties::history` once the
control mode `cmode` (after any WHISTCL override) has been validated: the
record constructor, prediction flag, liquid-rate derivation, BHP/THP history
copies, control registration, BHP-limit resolution and VFP/ALQ inheritance
(source lines 50-114). -/
def historyBody (prev : WellProductionProperties) (record : HistRecord)
    (cmode : ControlMode) (switching_from_injector : Bool) :
    WellProductionProperties :=
  { -- WellProductionProperties p(record): the record constructor reads the
    -- three rate items (lines 38-42); p.predictionMode = false (line 51)
    OilRate := record.ORAT
    WaterRate := record.WRAT
    GasRate := record.GRAT
    predictionMode := false
    -- p.LiquidRate = p.WaterRate + p.OilRate (line 54)
    LiquidRate := record.WRAT + record.ORAT
    -- measured BHP/THP copied into the history fields when the record has a
    -- value (lines 56-59); otherwise the fields keep the constructed default 0
    BHPH := match record.BHP with | some v => v | none => 0
    THPH := match record.THP with | some v => v | none => 0
    -- p.addProductionControl(cmode) (line 76), then ensure a BHP control:
    -- if (!p.hasProductionControl(BHP)) p.addProductionControl(BHP) (86-87)
    m_productionControls :=
      let s := insert cmode (∅ : Finset ControlMode)
      if ControlMode.BHP ∈ s then s else insert ControlMode.BHP s
    -- p.controlMode = cmode (line 77)
    controlMode := cmode
    -- BHP-limit resolution (lines 89-102): under BHP control the limit is
    -- p.BHPH (just computed above); otherwise reset to the default
    -- (resetDefaultBHPLimit, 1 * atm) when coming from prediction mode, from
    -- an injector, or from BHP control, else inherit prev's limit
    BHPLimit :=
      if cmode == ControlMode.BHP then
        (match record.BHP with | some v => v | none => 0)
      else if prev.predictionMode || switching_from_injector
              || prev.controlMode == ControlMode.BHP then
        1 * atm
      else getBHPLimit prev
    -- p.VFPTableNumber = record VFPTable; if 0, inherit prev's (lines 104-107)
    VFPTableNumber :=
      if record.VFPTable == 0 then prev.VFPTableNumber else record.VFPTable
    -- p.ALQValue = record Lift; if 0., inherit prev's (lines 109-112)
    ALQValue := if record.Lift == 0 then prev.ALQValue else record.Lift }

/-- `WellProductionProperties::history`: control-mode directive handling (fail
on a defaulted CMODE, unconditional WHISTCL override when effective, validation
against `effectiveHistoryProductionControl`) around `historyBody`. -/
def history (prev_properties : WellProductionProperties) (record : HistRecord)
    (controlModeWHISTCL : ControlMode) (switching_from_injector : Bool) :
    Except ResolveError WellProductionProperties :=
  match record.CMODE with
  | none =>
      .error (.missingControlMode
        "control mode can not be defaulted for keyword WCONHIST")
  | some cmode0 =>
      let cmode := if effectiveHistoryProductionControl controlModeWHISTCL then
                     controlModeWHISTCL
                   else cmode0
      if effectiveHistoryProductionControl cmode then
        .ok (historyBody prev_properties record cmode switching_from_injector)
      else
        .error (.unsupportedControlMode
          ("unsupported control mode " ++ modeString cmode0 ++ " for WCONHIST"))

/-- The state built by `WellProductionProperties::prediction` before the CMODE
block (source lines 121-154): field reads, the static loop over the six
(item, mode) pairs — unrolled here in the source's order, with the zero-THP
skip — the unconditional BHP control and the optional GRUP control. -/
def predictionBase (record : PredRecord) (addGroupProductionControl : Bool) :
    WellProductionProperties :=
  { -- WellProductionProperties p(record) (lines 38-42) and the direct field
    -- reads of lines 122-129
    OilRate := record.ORAT.value
    WaterRate := record.WRAT.value
    GasRate := record.GRAT.value
    predictionMode := true
    LiquidRate := record.LRAT.value
    ResVRate := record.RESV.value
    BHPLimit := record.BHP
    THPLimit := record.THP.value
    ALQValue := record.ALQ
    VFPTableNumber := record.VFP_TABLE
    -- the static loop over the six (item, mode) pairs (lines 133-147),
    -- unrolled in the source's order: a non-defaulted item adds its mode, a
    -- zero-valued THP limit (p.THPLimit, read at line 127 from the record) is
    -- skipped; then the unconditional BHP control (line 150) and the optional
    -- group control (lines 152-154)
    m_productionControls :=
      let s : Finset ControlMode := ∅
      let s := if record.ORAT.defaulted then s else insert ControlMode.ORAT s
      let s := if record.WRAT.defaulted then s else insert ControlMode.WRAT s
      let s := if record.GRAT.defaulted then s else insert ControlMode.GRAT s
      let s := if record.LRAT.defaulted then s else insert ControlMode.LRAT s
      let s := if record.RESV.defaulted then s else insert ControlMode.RESV s
      let s := if record.THP.defaulted then s
               else if record.THP.value == 0 then s
               else insert ControlMode.THP s
      let s := insert ControlMode.BHP s
      if addGroupProductionControl then insert ControlMode.GRUP s else s }

/-- `WellProductionProperties::prediction`: `predictionBase` followed by the
CMODE block (source lines 157-167). -/
def prediction (record : PredRecord) (addGroupProductionControl : Bool) :
    Except ResolveError WellProductionProperties :=
  let p := predictionBase record addGroupProductionControl
  match record.CMODE with
  | some cmode =>
      if hasProductionControl p cmode then
        .ok { p with controlMode := cmode }
      else
        .error (.unavailableControlSelection "Setting CMODE to unspecified control")
  | none => .ok p

end WellProductionProperties

open WellProductionProperties

/-- A concrete previous state: a historical producer under ORAT control. -/
def prevHist : WellProductionProperties :=
  { predictionMode := false, controlMode := ControlMode.ORAT,
    BHPLimit := 5000000, VFPTableNumber := 3, ALQValue := 2,
    m_productionControls := {ControlMode.ORAT, ControlMode.BHP} }

/-- A concrete WCONHIST record selecting BHP control, with a measured BHP and
unset VFP/lift sentinels. -/
def recHistBHP : HistRecord :=
  { ORAT := 1, WRAT := 2, GRAT := 3, BHP := some 8000000, THP := none,
    CMODE := some ControlMode.BHP, VFPTable := 0, Lift := 0 }

/-- A concrete WCONHIST record whose stated mode THP is not an effective
historical production control. -/
def recHistTHP : HistRecord :=
  { ORAT := 1, WRAT := 1, GRAT := 1, BHP := none, THP := some 5,
    CMODE := some ControlMode.THP, VFPTable := 1, Lift := 1 }

/-- A concrete WCONPROD record with an explicit oil rate and an ORAT
current-mode directive. -/
def recPredA : PredRecord :=
  { ORAT := ⟨10, false⟩, WRAT := ⟨0, true⟩, GRAT := ⟨0, true⟩,
    LRAT := ⟨0, true⟩, RESV := ⟨0, true⟩, BHP := 100, THP := ⟨0, true⟩,
    ALQ := 0, VFP_TABLE := 0, CMODE := some ControlMode.ORAT }

/-- A concrete WCONPROD record with an explicitly specified zero THP, all rate
items defaulted, and no current-mode directive. -/
def recPredD : PredRecord :=
  { ORAT := ⟨0, true⟩, WRAT := ⟨0, true⟩, GRAT := ⟨0, true⟩,
    LRAT := ⟨0, true⟩, RESV := ⟨0, true⟩, BHP := 0, THP := ⟨0, false⟩,
    ALQ := 0, VFP_TABLE := 0, CMODE := none }

/-- A concrete WCONPROD record whose current-mode directive THP names a mode
outside the computed active set. -/
def recPredE : PredRecord :=
  { ORAT := ⟨1, false⟩, WRAT := ⟨0, true⟩, GRAT := ⟨0, true⟩,
    LRAT := ⟨0, true⟩, RESV := ⟨0, true⟩, BHP := 0, THP := ⟨0, true⟩,
    ALQ := 0, VFP_TABLE := 0, CMODE := some ControlMode.THP }

/-- A default-constructed control state. -/
def wppA : WellProductionProperties := {}

/-- A control state that differs from `wppA` in `ALQValue` alone. -/
def wppB : WellProductionProperties := { ALQValue := 1 }

/-- Finset membership commutes with `if`. -/
lemma mem_ite_finset (c : Prop) [Decidable c]
    (S T : Finset ControlMode) (a : ControlMode) :
    (a ∈ if c then S else T) ↔ if c then a ∈ S else a ∈ T := by
  split <;> rfl

/-- The active-control set of `historyBody` is the validated control mode plus
the unconditional BHP control, and nothing else. -/
lemma mem_historyBody (prev : WellProductionProperties) (record : HistRecord)
    (cmode : ControlMode) (sw : Bool) (m : ControlMode) :
    m ∈ (historyBody prev record cmode sw).m_productionControls ↔
      m = ControlMode.BHP ∨ m = cmode := by
  simp only [historyBody]
  split_ifs with h <;> simp_all [Finset.mem_insert] <;> tauto

/-- Success characterization of `history`: it returns a state exactly when the
record states a control mode and the mode after any WHISTCL override is an
effective historical production control, and the state is `historyBody` at that
mode. -/
lemma history_ok_iff {prev : WellProductionProperties} {record : HistRecord}
    {ov : ControlMode} {sw : Bool} {r : WellProductionProperties} :
    history prev record ov sw = Except.ok r ↔
      ∃ c0, record.CMODE = some c0 ∧
        effectiveHistoryProductionControl
          (if effectiveHistoryProductionControl ov then ov else c0) = true ∧
        r = historyBody prev record
          (if effectiveHistoryProductionControl ov then ov else c0) sw := by
  unfold history
  cases hC : record.CMODE <;> simp [hC] <;> split_ifs <;> simp_all
  all_goals exact eq_comm

set_option maxHeartbeats 1000000 in
/-- Membership in the active-control set built by `predictionBase`: each of the
six loop modes is present exactly when its item is not defaulted (with the
zero-THP skip), BHP is always present, and GRUP is present exactly when group
control was requested. -/
lemma mem_predictionBase (record : PredRecord) (g : Bool) (m : ControlMode) :
    m ∈ (predictionBase record g).m_productionControls ↔
      (m = .GRUP ∧ g = true) ∨
      m = .BHP ∨
      (m = .THP ∧ record.THP.defaulted = false ∧ record.THP.value ≠ 0) ∨
      (m = .RESV ∧ record.RESV.defaulted = false) ∨
      (m = .LRAT ∧ record.LRAT.defaulted = false) ∨
      (m = .GRAT ∧ record.GRAT.defaulted = false) ∨
      (m = .WRAT ∧ record.WRAT.defaulted = false) ∨
      (m = .ORAT ∧ record.ORAT.defaulted = false) := by
  cases hO : record.ORAT.defaulted <;> cases hW : record.WRAT.defaulted <;>
  cases hG : record.GRAT.defaulted <;> cases hL : record.LRAT.defaulted <;>
  cases hR : record.RESV.defaulted <;> cases hT : record.THP.defaulted <;>
  cases g <;>
    simp only [predictionBase, hO, hW, hG, hL, hR, hT, if_true, if_false,
      Bool.false_eq_true, Bool.true_eq_false, mem_ite_finset] <;>
    (try split_ifs) <;>
    simp_all [Finset.mem_insert]

/-- Success characterization of `prediction`: with a CMODE directive the result
is `predictionBase` with the directive as current control, provided the
directive is an available control; without a directive the result is
`predictionBase` itself. -/
lemma prediction_ok_iff {record : PredRecord} {g : Bool}
    {r : WellProductionProperties} :
    prediction record g = Except.ok r ↔
      (∃ c, record.CMODE = some c ∧
        hasProductionControl (predictionBase record g) c = true ∧
        r = { predictionBase record g with controlMode := c }) ∨
      (record.CMODE = none ∧ r = predictionBase record g) := by
  unfold prediction
  cases hC : record.CMODE with
  | none =>
      simp [hC]
      exact eq_comm
  | some c =>
      simp [hC]
      split_ifs with hhas
      · simp [hhas]
        exact eq_comm
      · simp [hhas]

/-- C1: in a successful historical resolution, under BHP control the limit is
the measured BHP history value from the record; otherwise it is reset to one
standard atmosphere exactly when the previous state was predictive, the well is
switching from injector to producer, or the previous current control was BHP,
and is inherited verbatim from the previous state in all remaining cases. -/
theorem history_bhp_limit_resolution
    (prev : WellProductionProperties) (record : HistRecord) (ov : ControlMode)
    (sw : Bool) (r : WellProductionProperties)
    (h : history prev record ov sw = Except.ok r) :
    (r.controlMode = ControlMode.BHP →
      r.BHPLimit = r.BHPH ∧ ∀ v, record.BHP = some v → r.BHPLimit = v) ∧
    (r.controlMode ≠ ControlMode.BHP →
      r.BHPLimit =
        if prev.predictionMode = true ∨ sw = true ∨
            prev.controlMode = ControlMode.BHP
        then 1 * atm else prev.BHPLimit) := by
  obtain ⟨c0, hc, heff, hr⟩ := history_ok_iff.mp h
  subst hr
  constructor
  · intro hb
    have hcm : (if effectiveHistoryProductionControl ov then ov else c0) =
        ControlMode.BHP := hb
    refine ⟨by simp [historyBody, hcm], fun v hv => by simp [historyBody, hcm, hv]⟩
  · intro hb
    have hcm : (if effectiveHistoryProductionControl ov then ov else c0) ≠
        ControlMode.BHP := hb
    simp [historyBody, hcm, getBHPLimit, Bool.or_eq_true, beq_iff_eq, or_assoc]

/-- C8: in a successful historical resolution the VFP table number is the
record's value unless that value is the unset sentinel 0, in which case it is
the previous state's value, and likewise for the lift quantity with the unset
sentinel 0.0. -/
theorem history_vfp_alq_inheritance
    (prev : WellProductionProperties) (record : HistRecord) (ov : ControlMode)
    (sw : Bool) (r : WellProductionProperties)
    (h : history prev record ov sw = Except.ok r) :
    (record.VFPTable ≠ 0 → r.VFPTableNumber = record.VFPTable) ∧
    (record.VFPTable = 0 → r.VFPTableNumber = prev.VFPTableNumber) ∧
    (record.Lift ≠ 0 → r.ALQValue = record.Lift) ∧
    (record.Lift = 0 → r.ALQValue = prev.ALQValue) := by
  obtain ⟨c0, hc, heff, hr⟩ := history_ok_iff.mp h
  subst hr
  refine ⟨fun hv => ?_, fun hv => ?_, fun hv => ?_, fun hv => ?_⟩ <;>
    simp [historyBody, hv]

/-- C9: `effectiveHistoryProductionControl` holds for exactly
LRAT, RESV, ORAT, WRAT, GRAT and BHP, and consequently the current control of
every state produced by the historical resolver lies in that six-element set
(never THP or GRUP). -/
theorem effective_control_characterization
    (prev : WellProductionProperties) (record : HistRecord) (ov : ControlMode)
    (sw : Bool) (r : WellProductionProperties)
    (h : history prev record ov sw = Except.ok r) :
    (∀ m, effectiveHistoryProductionControl m = true ↔
      (m = ControlMode.LRAT ∨ m = ControlMode.RESV ∨ m = ControlMode.ORAT ∨
       m = ControlMode.WRAT ∨ m = ControlMode.GRAT ∨ m = ControlMode.BHP)) ∧
    (r.controlMode = ControlMode.ORAT ∨ r.controlMode = ControlMode.WRAT ∨
     r.controlMode = ControlMode.GRAT ∨ r.controlMode = ControlMode.LRAT ∨
     r.controlMode = ControlMode.RESV ∨ r.controlMode = ControlMode.BHP) := by
  have hch : ∀ m, effectiveHistoryProductionControl m = true ↔
      (m = ControlMode.LRAT ∨ m = ControlMode.RESV ∨ m = ControlMode.ORAT ∨
       m = ControlMode.WRAT ∨ m = ControlMode.GRAT ∨ m = ControlMode.BHP) := by
    intro m; cases m <;> simp [effectiveHistoryProductionControl]
  refine ⟨hch, ?_⟩
  obtain ⟨c0, hc, heff, hr⟩ := history_ok_iff.mp h
  subst hr
  have := (hch _).mp heff
  tauto

/-- C10: in a successful historical resolution under BHP control the limit is
assigned from the state's own BHP-history field — the record's value when
present, the constructed default otherwise — and the previous state's BHP
limit is never consulted: any previous state yields the same limit. -/
theorem history_bhp_control_limit_from_record
    (prev : WellProductionProperties) (record : HistRecord) (ov : ControlMode)
    (sw : Bool) (r : WellProductionProperties)
    (h : history prev record ov sw = Except.ok r)
    (hcm : r.controlMode = ControlMode.BHP) :
    r.BHPLimit = r.BHPH ∧
    (∀ v, record.BHP = some v → r.BHPLimit = v) ∧
    (record.BHP = none → r.BHPLimit = ({} : WellProductionProperties).BHPH) ∧
    (∀ prev' r', history prev' record ov sw = Except.ok r' →
      r'.BHPLimit = r.BHPLimit) := by
  obtain ⟨c0, hc, heff, hr⟩ := history_ok_iff.mp h
  subst hr
  have hcmode : (if effectiveHistoryProductionControl ov then ov else c0) =
      ControlMode.BHP := hcm
  refine ⟨by simp [historyBody, hcmode],
          fun v hv => by simp [historyBody, hcmode, hv],
          fun hv => by simp [historyBody, hcmode, hv],
          fun prev' r' h' => ?_⟩
  obtain ⟨c0', hc', heff', hr'⟩ := history_ok_iff.mp h'
  rw [hc] at hc'
  obtain rfl : c0' = c0 := by injection hc'.symm
  subst hr'
  simp [historyBody, hcmode]

/-- C2 (amended): `operator==` holds exactly when the two states agree on
every compared field — all fields except `ALQValue`, which the comparison does
not consult. -/
theorem wppEq_characterization (a b : WellProductionProperties) :
    wppEq a b = true ↔
      (a.OilRate = b.OilRate ∧ a.WaterRate = b.WaterRate ∧
       a.GasRate = b.GasRate ∧ a.LiquidRate = b.LiquidRate ∧
       a.ResVRate = b.ResVRate ∧ a.BHPLimit = b.BHPLimit ∧
       a.THPLimit = b.THPLimit ∧ a.BHPH = b.BHPH ∧ a.THPH = b.THPH ∧
       a.VFPTableNumber = b.VFPTableNumber ∧ a.controlMode = b.controlMode ∧
       a.m_productionControls = b.m_productionControls ∧
       a.predictionMode = b.predictionMode) := by
  simp [wppEq, and_assoc]

/-- C2 counterexample: two states that differ in `ALQValue` alone nevertheless
compare equal under `operator==`. -/
theorem wppEq_alq_counterexample :
    wppA.ALQValue ≠ wppB.ALQValue ∧ wppEq wppA wppB = true := by decide

/-- C3 counterexample: a predictive resolution that succeeds with no
current-mode directive leaves the current control at the constructed default,
which is not a member of the computed active-control set. -/
theorem currentControl_default_counterexample :
    prediction recPredD false = Except.ok (predictionBase recPredD false) ∧
    (predictionBase recPredD false).controlMode ∉
      (predictionBase recPredD false).m_productionControls :=
  ⟨rfl, by decide⟩

/-- C3 (amended): the current control of every state produced by the
historical resolver, and of every state produced by the predictive resolver
from a record that supplies a current-mode directive, is a member of that
state's active-control set.  (Without a directive the predictive current
control stays at the constructed default, which is outside the set.) -/
theorem currentControl_in_active_amended
    (prev : WellProductionProperties) (rec1 : HistRecord) (ov : ControlMode)
    (sw : Bool) (r1 : WellProductionProperties)
    (rec2 : PredRecord) (g : Bool) (c : ControlMode)
    (r2 : WellProductionProperties)
    (h1 : history prev rec1 ov sw = Except.ok r1)
    (h2 : rec2.CMODE = some c)
    (h3 : prediction rec2 g = Except.ok r2) :
    r1.controlMode ∈ r1.m_productionControls ∧
    r2.controlMode ∈ r2.m_productionControls := by
  constructor
  · obtain ⟨c0, hc, heff, hr⟩ := history_ok_iff.mp h1
    subst hr
    rw [mem_historyBody]
    exact Or.inr rfl
  · rcases prediction_ok_iff.mp h3 with ⟨c', hc', hhas, hr⟩ | ⟨hnone, hr⟩
    · subst hr
      simp only [hasProductionControl, decide_eq_true_eq] at hhas
      exact hhas
    · rw [hnone] at h2
      cases h2

/-- C4: BHP is a member of the active-control set of every state produced by
either resolver, whether or not the record specified a BHP value. -/
theorem bhp_always_active
    (prev : WellProductionProperties) (rec1 : HistRecord) (ov : ControlMode)
    (sw : Bool) (r1 : WellProductionProperties)
    (rec2 : PredRecord) (g : Bool) (r2 : WellProductionProperties)
    (h1 : history prev rec1 ov sw = Except.ok r1)
    (h2 : prediction rec2 g = Except.ok r2) :
    ControlMode.BHP ∈ r1.m_productionControls ∧
    ControlMode.BHP ∈ r2.m_productionControls := by
  constructor
  · obtain ⟨c0, hc, heff, hr⟩ := history_ok_iff.mp h1
    subst hr
    rw [mem_historyBody]
    exact Or.inl rfl
  · have hmem : ControlMode.BHP ∈ (predictionBase rec2 g).m_productionControls := by
      rw [mem_predictionBase]
      tauto
    rcases prediction_ok_iff.mp h2 with ⟨c', hc', hhas, hr⟩ | ⟨hnone, hr⟩ <;>
      subst hr <;> exact hmem

/-- C5: the historical resolver fails with the missing-control-mode error
exactly when the record's CMODE item is defaulted; an effective WHISTCL
override replaces the stated mode and becomes the current control; and it
fails with the unsupported-control-mode error naming the offending mode text
exactly when the mode after any override replacement is not an effective
historical production control. -/
theorem history_error_taxonomy
    (prev : WellProductionProperties) (record : HistRecord) (ov : ControlMode)
    (sw : Bool) :
    (history prev record ov sw =
        Except.error (ResolveError.missingControlMode
          "control mode can not be defaulted for keyword WCONHIST") ↔
      record.CMODE = none) ∧
    (∀ c0, record.CMODE = some c0 →
      (effectiveHistoryProductionControl ov = true →
        ∃ r, history prev record ov sw = Except.ok r ∧ r.controlMode = ov) ∧
      (effectiveHistoryProductionControl
          (if effectiveHistoryProductionControl ov then ov else c0) = false ↔
        history prev record ov sw =
          Except.error (ResolveError.unsupportedControlMode
            ("unsupported control mode " ++
              modeString
                (if effectiveHistoryProductionControl ov then ov else c0) ++
              " for WCONHIST")))) := by
  constructor
  · unfold history
    cases hC : record.CMODE with
    | none => simp
    | some c0 =>
        simp only [hC]
        split_ifs <;> simp
  · intro c0 hc
    constructor
    · intro hov
      refine ⟨historyBody prev record ov sw, ?_, rfl⟩
      unfold history
      rw [hc]
      simp [hov]
    · unfold history
      rw [hc]
      split_ifs with h1 h2 <;> simp_all

/-- C6: in a successful predictive resolution each of ORAT, WRAT, GRAT, LRAT,
RESV and THP is in the active-control set exactly when the record explicitly
specified the corresponding item — except THP, which is omitted when its
resolved value is exactly zero — and GRUP is in the set exactly when
group-control participation was requested. -/
theorem prediction_active_set
    (record : PredRecord) (g : Bool) (r : WellProductionProperties)
    (h : prediction record g = Except.ok r) :
    (ControlMode.ORAT ∈ r.m_productionControls ↔
      record.ORAT.defaulted = false) ∧
    (ControlMode.WRAT ∈ r.m_productionControls ↔
      record.WRAT.defaulted = false) ∧
    (ControlMode.GRAT ∈ r.m_productionControls ↔
      record.GRAT.defaulted = false) ∧
    (ControlMode.LRAT ∈ r.m_productionControls ↔
      record.LRAT.defaulted = false) ∧
    (ControlMode.RESV ∈ r.m_productionControls ↔
      record.RESV.defaulted = false) ∧
    (ControlMode.THP ∈ r.m_productionControls ↔
      (record.THP.defaulted = false ∧ record.THP.value ≠ 0)) ∧
    (ControlMode.GRUP ∈ r.m_productionControls ↔ g = true) := by
  have hr : r.m_productionControls =
      (predictionBase record g).m_productionControls := by
    rcases prediction_ok_iff.mp h with ⟨c, hc, hhas, hr⟩ | ⟨hnone, hr⟩ <;>
      subst hr <;> rfl
  rw [hr]
  refine ⟨?_, ?_, ?_, ?_, ?_, ?_, ?_⟩ <;> rw [mem_predictionBase] <;> simp

/-- C7: with an explicit current-mode directive the predictive resolver fails
with the unavailable-control-selection error exactly when the named mode is
not in the active set computed from the record and the group flag, and
otherwise sets that mode as current control; without a directive it succeeds
with the current control left at the constructed default, unchanged. -/
theorem prediction_cmode_selection (record : PredRecord) (g : Bool) :
    (∀ c, record.CMODE = some c →
      ((prediction record g =
          Except.error (ResolveError.unavailableControlSelection
            "Setting CMODE to unspecified control")) ↔
        c ∉ (predictionBase record g).m_productionControls) ∧
      (c ∈ (predictionBase record g).m_productionControls →
        prediction record g =
          Except.ok { predictionBase record g with controlMode := c })) ∧
    (record.CMODE = none →
      prediction record g = Except.ok (predictionBase record g) ∧
      (predictionBase record g).controlMode = ControlMode.CMODE_UNDEFINED) := by
  constructor
  · intro c hc
    constructor
    · simp only [prediction, hc]
      split_ifs with hhas <;>
        simp only [hasProductionControl, decide_eq_true_eq] at hhas <;>
        simp [hhas]
    · intro hmem
      have hhas : hasProductionControl (predictionBase record g) c = true := by
        simp [hasProductionControl, hmem]
      simp [prediction, hc, hhas]
  · intro hnone
    refine ⟨?_, rfl⟩
    simp [prediction, hnone]

/-- C1 witness: the BHP-controlled historical run on `recHistBHP` gives the
measured BHP value as the limit. -/
theorem history_bhp_limit_resolution_witness :
    (historyBody prevHist recHistBHP ControlMode.BHP false).BHPLimit =
      8000000 := by
  have H := history_bhp_limit_resolution prevHist recHistBHP
    ControlMode.CMODE_UNDEFINED false
    (historyBody prevHist recHistBHP ControlMode.BHP false) rfl
  exact (H.1 rfl).2 8000000 rfl

/-- C3 witness: concrete runs of both resolvers whose current control lies in
the active set. -/
theorem currentControl_in_active_amended_witness :
    (historyBody prevHist recHistBHP ControlMode.BHP false).controlMode ∈
      (historyBody prevHist recHistBHP ControlMode.BHP false).m_productionControls ∧
    ({ predictionBase recPredA true with
        controlMode := ControlMode.ORAT }).controlMode ∈
      ({ predictionBase recPredA true with
          controlMode := ControlMode.ORAT }).m_productionControls :=
  currentControl_in_active_amended prevHist recHistBHP
    ControlMode.CMODE_UNDEFINED false
    (historyBody prevHist recHistBHP ControlMode.BHP false)
    recPredA true ControlMode.ORAT
    { predictionBase recPredA true with controlMode := ControlMode.ORAT }
    rfl rfl rfl

/-- C4 witness: BHP is active in concrete runs of both resolvers. -/
theorem bhp_always_active_witness :
    ControlMode.BHP ∈
      (historyBody prevHist recHistBHP ControlMode.BHP false).m_productionControls ∧
    ControlMode.BHP ∈
      ({ predictionBase recPredA true with
          controlMode := ControlMode.ORAT }).m_productionControls :=
  bhp_always_active prevHist recHistBHP ControlMode.CMODE_UNDEFINED false
    (historyBody prevHist recHistBHP ControlMode.BHP false)
    recPredA true
    { predictionBase recPredA true with controlMode := ControlMode.ORAT }
    rfl rfl

/-- C5 witness: a stated THP mode (with no effective override) makes the
historical resolver fail with the unsupported-control-mode error. -/
theorem history_error_taxonomy_witness :
    history prevHist recHistTHP ControlMode.CMODE_UNDEFINED false =
      Except.error (ResolveError.unsupportedControlMode
        ("unsupported control mode " ++
          modeString
            (if effectiveHistoryProductionControl ControlMode.CMODE_UNDEFINED
             then ControlMode.CMODE_UNDEFINED else ControlMode.THP) ++
          " for WCONHIST")) := by
  have H := history_error_taxonomy prevHist recHistTHP
    ControlMode.CMODE_UNDEFINED false
  exact ((H.2 ControlMode.THP rfl).2).mp (by decide)

/-- C6 witness: an explicitly specified zero THP does not enter the active
set. -/
theorem prediction_active_set_witness :
    ControlMode.THP ∉ (predictionBase recPredD false).m_productionControls := by
  have H := prediction_active_set recPredD false
    (predictionBase recPredD false) rfl
  intro hm
  exact (H.2.2.2.2.2.1.mp hm).2 rfl

/-- C7 witness: a THP directive against an active set without THP fails with
the unavailable-control-selection error. -/
theorem prediction_cmode_selection_witness :
    prediction recPredE false =
      Except.error (ResolveError.unavailableControlSelection
        "Setting CMODE to unspecified control") := by
  have H := prediction_cmode_selection recPredE false
  exact ((H.1 ControlMode.THP rfl).1).mpr (by decide)

/-- C8 witness: unset VFP/lift sentinels inherit the previous state's
values. -/
theorem history_vfp_alq_inheritance_witness :
    (historyBody prevHist recHistBHP ControlMode.BHP false).VFPTableNumber =
      prevHist.VFPTableNumber ∧
    (historyBody prevHist recHistBHP ControlMode.BHP false).ALQValue =
      prevHist.ALQValue := by
  have H := history_vfp_alq_inheritance prevHist recHistBHP
    ControlMode.CMODE_UNDEFINED false
    (historyBody prevHist recHistBHP ControlMode.BHP false) rfl
  exact ⟨H.2.1 rfl, H.2.2.2 rfl⟩

/-- C9 witness: THP and GRUP are not effective historical production controls,
and a concrete historical run's current control is not THP. -/
theorem effective_control_characterization_witness :
    effectiveHistoryProductionControl ControlMode.THP = false ∧
    effectiveHistoryProductionControl ControlMode.GRUP = false ∧
    (historyBody prevHist recHistBHP ControlMode.BHP false).controlMode ≠
      ControlMode.THP := by
  have H := effective_control_characterization prevHist recHistBHP
    ControlMode.CMODE_UNDEFINED false
    (historyBody prevHist recHistBHP ControlMode.BHP false) rfl
  refine ⟨?_, ?_, ?_⟩
  · cases heq : effectiveHistoryProductionControl ControlMode.THP
    · rfl
    · exact absurd ((H.1 ControlMode.THP).mp heq) (by decide)
  · cases heq : effectiveHistoryProductionControl ControlMode.GRUP
    · rfl
    · exact absurd ((H.1 ControlMode.GRUP).mp heq) (by decide)
  · rcases H.2 with h | h | h | h | h | h <;> rw [h] <;> decide

/-- C10 witness: a concrete BHP-controlled historical run takes its limit from
its own BHP-history field. -/
theorem history_bhp_control_limit_from_record_witness :
    (historyBody prevHist recHistBHP ControlMode.BHP false).BHPLimit =
      (historyBody prevHist recHistBHP ControlMode.BHP false).BHPH := by
  have H := history_bhp_control_limit_from_record prevHist recHistBHP
    ControlMode.CMODE_UNDEFINED false
    (historyBody prevHist recHistBHP ControlMode.BHP false) rfl rfl
  exact H.1

end Opm
